import Mathlib

/-!
Shallow embedding of the trial data-ingestion script
(src/samplecode_dataingestion.py).

Python values that flow through the script are modelled by the inductive
type `Val`.  Dictionaries are association lists keyed by strings; in every
code path exercised by the script the keys actually used are strings, and
the model makes this restriction explicit.  Fallible Python operations
(attribute errors, type errors, index errors) are modelled in the
`Except String` monad.  Side effects (print statements and log calls) are
modelled as an explicit list of `Event`s produced alongside each result.
-/

/-- A Python value as used by the script: strings, integers, booleans,
lists, string-keyed dictionaries, and None. -/
inductive Val where
  | str : String → Val
  | int : Int → Val
  | bool : Bool → Val
  | list : List Val → Val
  | dict : List (String × Val) → Val
  | none : Val

/-- Python truthiness of a value, as used by `if x:` tests. -/
def Val.truthy : Val → Bool
  | Val.str s => !(s == "")
  | Val.int n => !(n == 0)
  | Val.bool b => b
  | Val.list xs => !xs.isEmpty
  | Val.dict kvs => !kvs.isEmpty
  | Val.none => false

/-- Lookup with default in a string-keyed dictionary, i.e. Python
`d.get(k, default)` when `d` is known to be a dict. -/
def dictGet (kvs : List (String × Val)) (k : String) (d : Val) : Val :=
  match kvs.lookup k with
  | some v => v
  | Option.none => d

/-- Python `d[k] = v` on a dict: replaces the value of an existing key in
place, otherwise appends the new binding. -/
def dictSet : List (String × Val) → String → Val → List (String × Val)
  | [], k, v => [(k, v)]
  | (k₀, v₀) :: rest, k, v =>
      if k₀ = k then (k, v) :: rest else (k₀, v₀) :: dictSet rest k v

/-- Python `x.get(k, default)`: succeeds when `x` is a dict, raises
AttributeError otherwise (for example when `x` is None). -/
def pyDictGet : Val → String → Val → Except String Val
  | Val.dict kvs, k, d => Except.ok (dictGet kvs k d)
  | _, _, _ => Except.error "AttributeError: object has no attribute get"

/-- Python `x.get(key, default)` where the key is itself a Python value.
In this model dict keys are strings, so a non-string key simply misses. -/
def pyGetV : Val → Val → Val → Except String Val
  | Val.dict kvs, Val.str s, d => Except.ok (dictGet kvs s d)
  | Val.dict _, _, d => Except.ok d
  | _, _, _ => Except.error "AttributeError: object has no attribute get"

/-- Python iteration `for x in v`: characters of a string (each as a
one-character string), elements of a list, keys of a dict; anything else
raises TypeError. -/
def pyIter : Val → Except String (List Val)
  | Val.str s => Except.ok (s.toList.map (fun c => Val.str (String.mk [c])))
  | Val.list xs => Except.ok xs
  | Val.dict kvs => Except.ok (kvs.map (fun kv => Val.str kv.1))
  | _ => Except.error "TypeError: object is not iterable"

/-- Python `len(v)`. -/
def pyLen : Val → Except String Nat
  | Val.str s => Except.ok s.length
  | Val.list xs => Except.ok xs.length
  | Val.dict kvs => Except.ok kvs.length
  | _ => Except.error "TypeError: object has no len"

/-- Python `n * v` where `n` is a non-negative integer (a `len` result):
numeric multiplication for ints and bools, repetition for strings and
lists, TypeError otherwise. -/
def pyMul (n : Nat) : Val → Except String Val
  | Val.int m => Except.ok (Val.int ((n : Int) * m))
  | Val.bool b => Except.ok (Val.int ((n : Int) * (if b then 1 else 0)))
  | Val.str s => Except.ok (Val.str (String.join (List.replicate n s)))
  | Val.list xs => Except.ok (Val.list (List.flatten (List.replicate n xs)))
  | _ => Except.error "TypeError: unsupported operand type"

/-- Python `v[0]`, as used by the comprehension in `Schedule.__init__`. -/
def pyIndex0 : Val → Except String Val
  | Val.str s =>
      match s.data with
      | [] => Except.error "IndexError: string index out of range"
      | c :: _ => Except.ok (Val.str (String.mk [c]))
  | Val.list [] => Except.error "IndexError: list index out of range"
  | Val.list (x :: _) => Except.ok x
  | Val.dict _ => Except.error "KeyError: 0"
  | _ => Except.error "TypeError: object is not subscriptable"

/-- An observable side effect: a log record or a print statement.  Print
and log calls whose message interpolates a Python value carry that value
as payload together with the fixed prefix of the message. -/
inductive Event where
  | logInfo : String → Event
  | logWarning : String → Event
  | logError : String → Event
  | logInfoVal : String → Val → Event
  | printStr : String → Event
  | printVal : String → Val → Event

/-- The state of a constructed trial object (`TrialBase`): its name, its
sub-configuration and its loaded data. -/
structure TrialState where
  trial_name : String
  trial_config : Val
  trial_data : Val

/-- Result of `TrialBase.load_data`: the loaded trial data together with
the emitted events. -/
structure LoadResult where
  trial_data : Val
  events : List Event

/-- `TrialBase.load_data`.  The filesystem is modelled as a map from
paths to optional parsed YAML content (`Option.none` when the file does
not exist, `some v` when it exists and parses to `v`; an empty YAML file
parses to `Val.none`).  The data path is string-concatenated onto the
current working directory, exactly as in the source. -/
def load_data (cwd : String) (fs : String → Option Val) (name : String)
    (trial_config : Val) : Except String LoadResult := do
  let dataPathV ← pyDictGet trial_config "data_file" (Val.str "sample_trial_data.yaml")
  let dataPath ← match dataPathV with
    | Val.str s => Except.ok s
    | _ => Except.error "TypeError: can only concatenate str to str"
  let dataFile := cwd ++ dataPath
  match fs dataFile with
  | some content => do
      let td ← pyDictGet content name (Val.dict [])
      if td.truthy then
        Except.ok ⟨td, [Event.printVal "" td,
          Event.logInfo ("Loaded data for " ++ name ++ " from " ++ dataFile)]⟩
      else
        Except.ok ⟨td, [Event.logWarning ("No data found for " ++ name ++ " in " ++ dataFile)]⟩
  | Option.none =>
      Except.ok ⟨Val.dict [],
        [Event.logWarning ("Data file " ++ dataFile ++ " not found. Continuing without data.")]⟩

/-- `TrialBase.__init__`: extract the sub-config for `name` from the
full import config, then load the trial data. -/
def TrialBase.init (cwd : String) (fs : String → Option Val) (name : String)
    (import_config : Val) : Except String (TrialState × List Event) := do
  let cfg ← pyDictGet import_config name (Val.dict [])
  let r ← load_data cwd fs name cfg
  Except.ok ({ trial_name := name, trial_config := cfg, trial_data := r.trial_data }, r.events)

/-- The per-cohort metric computed inside `Cohort.process_data`:
`len(cohort_info.get("d", [])) * cohort_info.get("dose", 0)` where
`cohort_info = cohort_data.get(cohort, dict [])`. -/
def metricOf (cohort_data : Val) (cohort : Val) : Except String Val := do
  let info ← pyGetV cohort_data cohort (Val.dict [])
  let d ← pyDictGet info "d" (Val.list [])
  let n ← pyLen d
  let dose ← pyDictGet info "dose" (Val.int 0)
  pyMul n dose

/-- A Python value used as a dict key; in this model keys are strings. -/
def keyOf : Val → Except String String
  | Val.str s => Except.ok s
  | _ => Except.error "model restriction: dict keys are strings"

/-- The loop body of `Cohort.process_data`: successively assigns
`processed_data[cohort] = metric` for each configured cohort. -/
def processLoop (cohort_data : Val) : List Val → List (String × Val) →
    Except String (List (String × Val))
  | [], acc => Except.ok acc
  | c :: rest, acc => do
      let v ← metricOf cohort_data c
      let k ← keyOf c
      processLoop cohort_data rest (dictSet acc k v)

/-- `Cohort.process_data`: iterate over the configured cohort selection,
computing the metric for each cohort, then log the result. -/
def process_data (cohort_config cohort_data : Val) :
    Except String (List (String × Val) × List Event) := do
  let items ← pyIter cohort_config
  let out ← processLoop cohort_data items []
  Except.ok (out, [Event.logInfoVal "Processed data for cohorts: " (Val.dict out)])

/-- State of a constructed `Cohort` object. -/
structure CohortState where
  trial_instance : TrialState
  cohort_config : Val
  cohort_data : Val
  dose_data : List (String × Val)

/-- `Cohort.__init__`, taking the already-constructed trial instance:
extracts the cohort configuration and cohort data and processes them. -/
def Cohort.init (t : TrialState) : Except String (CohortState × List Event) := do
  let cfg ← pyDictGet t.trial_config "cohorts" (Val.list [])
  let data ← pyDictGet t.trial_data "cohorts" (Val.dict [])
  let (out, ev) ← process_data cfg data
  Except.ok (⟨t, cfg, data, out⟩, ev)

/-- Whether the cohort selection is the literal string "all"
(Python `self.cohorts == "all"`). -/
def isAllLiteral : Val → Bool
  | Val.str s => s == "all"
  | _ => false

/-- `Schedule.check_conditions`: true for the literal "all", true for any
truthy selection (whose elements are then iterated to build the log
message, which can raise TypeError on a non-iterable), false otherwise. -/
def check_conditions (cohorts : Val) : Except String (Bool × List Event) :=
  if isAllLiteral cohorts then
    Except.ok (true, [Event.logInfo "All cohorts selected."])
  else if cohorts.truthy then do
    let _ ← pyIter cohorts
    Except.ok (true, [Event.logInfoVal "Selected cohort(s): " cohorts])
  else
    Except.ok (false, [Event.logInfo "No cohorts selected."])

/-- `Schedule.fetch_schedule`: reads the "schedule" entry of the trial
data (default empty dict), prints it and logs it. -/
def fetch_schedule (t : TrialState) : Except String (Val × List Event) := do
  let sched ← pyDictGet t.trial_data "schedule" (Val.dict [])
  Except.ok (sched, [Event.logInfo "Collecting schedule for the trial.",
    Event.printVal "Schedule data: " sched,
    Event.logInfoVal "Schedule data: " sched])

/-- The fixed message used when no cohorts were passed. -/
def noCohortsMsg : String := "No cohorts were passed. Import pipeline exiting..."

/-- The pipeline status record set by `Schedule.__init__` when the
condition check fails. -/
def failStatus : Val :=
  Val.dict [("failure", Val.bool true), ("critical", Val.bool true),
    ("message", Val.str noCohortsMsg)]

/-- The comprehension `[c[0] for c in cohorts]` evaluated inside the
f-string argument of the success-branch log call. -/
def mapIndex0 : List Val → Except String (List Val)
  | [] => Except.ok []
  | c :: rest => do
      let h ← pyIndex0 c
      let t ← mapIndex0 rest
      Except.ok (h :: t)

/-- `[c[0] for c in self.cohorts]`: iterate the selection, indexing each
element at 0. -/
def pyFirsts (cohorts : Val) : Except String (List Val) := do
  let items ← pyIter cohorts
  mapIndex0 items

/-- State of a constructed `Schedule` object.  `pipeline_di` is `some`
only when `Schedule.__init__` assigned it (on a failed condition check). -/
structure ScheduleState where
  trial_instance : TrialState
  cohorts : Val
  collect_schedule : Val
  pipeline_di : Option Val

/-- `Schedule.__init__`, taking the already-constructed trial instance:
reads the cohort selection and the "schedule" flag, runs the condition
check, on success logs the fetch-commencing message (evaluating the
index-0 comprehension) and optionally fetches the schedule, and on
failure logs an error and records the failure status. -/
def Schedule.init (t : TrialState) : Except String (ScheduleState × List Event) := do
  let cohorts ← pyDictGet t.trial_config "cohorts" (Val.list [])
  let collect ← pyDictGet t.trial_config "schedule" (Val.bool false)
  let (ok, ev₁) ← check_conditions cohorts
  if ok then do
    let firsts ← pyFirsts cohorts
    let ev₂ := ev₁ ++ [Event.logInfoVal "Commencing data fetch cohorts: " (Val.list firsts)]
    if collect.truthy then do
      let (_, ev₃) ← fetch_schedule t
      Except.ok (⟨t, cohorts, collect, Option.none⟩, ev₂ ++ ev₃)
    else
      Except.ok (⟨t, cohorts, collect, Option.none⟩, ev₂)
  else
    Except.ok (⟨t, cohorts, collect, some failStatus⟩,
      ev₁ ++ [Event.logError noCohortsMsg])

/-- State of an object of the class produced by `create_import`: the
wrapped component state plus the `pipeline_di` attribute as last
assigned. -/
structure JobState (σ : Type) where
  inner : σ
  pipeline_di : Val

/-- The initial non-failure pipeline status set by
`TrialImportJob.__init__`. -/
def okStatus : Val := Val.dict [("failure", Val.bool false)]

/-- `create_import(endpoint_class).__init__`: run the wrapped component
initializer, then assign `pipeline_di` to the non-failure status.  The
assignment happens after `super().__init__`, so it is the final value of
the attribute. -/
def create_import_init {σ : Type}
    (componentInit : TrialState → Except String (σ × List Event))
    (t : TrialState) : Except String (JobState σ × List Event) := do
  let (s, ev) ← componentInit t
  Except.ok (⟨s, okStatus⟩, ev)

/-- The failure status set by `TrialImportJob.introduce` when the duck-
typed inheritance check fails. -/
def introduceFailStatus : Val :=
  Val.dict [("failure", Val.bool true), ("critical", Val.bool true)]

/-- `TrialImportJob.introduce`: if the job exposes a nested trial
instance (with its trial name), log and print the welcome message;
otherwise set the failure status and log an error.  The duck-typed
`hasattr` check is modelled by the `getTrialInstance` accessor. -/
def introduce {σ : Type} (getTrialInstance : σ → Option TrialState)
    (j : JobState σ) : JobState σ × List Event :=
  match getTrialInstance j.inner with
  | some t =>
      (j, [Event.logInfo ("Inherited " ++ t.trial_name ++ " and associated values."),
        Event.printStr ("Welcome to the " ++ t.trial_name ++ " clinical trial!")])
  | Option.none =>
      ({ j with pipeline_di := introduceFailStatus },
        [Event.logError "Failed to inherit expected class. Check function arguments."])

/-- The nested-trial-instance accessor of a `Schedule` component: always
present. -/
def scheduleTrial (s : ScheduleState) : Option TrialState := some s.trial_instance

/-- `TrialImportJob.run_import` for the `Schedule`-composed job:
introduce, then run the condition check (discarding its result), then
fetch the schedule whenever the collect flag is truthy. -/
def run_import (j : JobState ScheduleState) :
    Except String (JobState ScheduleState × List Event) := do
  let (j₁, ev₁) := introduce scheduleTrial j
  let (_, ev₂) ← check_conditions j₁.inner.cohorts
  if j₁.inner.collect_schedule.truthy then do
    let (_, ev₃) ← fetch_schedule j₁.inner.trial_instance
    Except.ok (j₁, ev₁ ++ ev₂ ++ ev₃)
  else
    Except.ok (j₁, ev₁ ++ ev₂)

/-- The shape of one cohort entry of the cohort-data mapping: its info
dict, its sample sequence (default empty) and its dose (default 0). -/
def EntryShape (dataKvs : List (String × Val)) (c : String)
    (ikvs : List (String × Val)) (ds : List Val) (k : Int) : Prop :=
  dictGet dataKvs c (Val.dict []) = Val.dict ikvs ∧
  dictGet ikvs "d" (Val.list []) = Val.list ds ∧
  dictGet ikvs "dose" (Val.int 0) = Val.int k

/-- A cohort entry is well formed: it is a dict (or missing) whose "d"
field is a list (or missing) and whose "dose" field is an int (or
missing). -/
def EntryWF (dataKvs : List (String × Val)) (c : String) : Prop :=
  ∃ ikvs ds k, EntryShape dataKvs c ikvs ds k

theorem lookup_dictSet_self (m : List (String × Val)) (k : String) (v : Val) :
    List.lookup k (dictSet m k v) = some v := by
  induction m with
  | nil => simp [dictSet, List.lookup]
  | cons p rest ih =>
      obtain ⟨k₀, v₀⟩ := p
      by_cases h : k₀ = k
      · simp [dictSet, h, List.lookup]
      · have hb : (k == k₀) = false := beq_eq_false_iff_ne.mpr (Ne.symm h)
        simp [dictSet, h, List.lookup, hb, ih]

theorem lookup_dictSet_ne (m : List (String × Val)) (k k₂ : String) (v : Val)
    (h : k₂ ≠ k) : List.lookup k₂ (dictSet m k v) = List.lookup k₂ m := by
  have hb : (k₂ == k) = false := beq_eq_false_iff_ne.mpr h
  induction m with
  | nil => simp [dictSet, List.lookup, hb]
  | cons p rest ih =>
      obtain ⟨k₀, v₀⟩ := p
      by_cases h₀ : k₀ = k
      · subst h₀
        simp [dictSet, List.lookup, hb]
      · by_cases h₂ : k₂ = k₀
        · subst h₂
          simp [dictSet, h₀, List.lookup]
        · have hb₂ : (k₂ == k₀) = false := beq_eq_false_iff_ne.mpr h₂
          simp [dictSet, h₀, List.lookup, hb₂, ih]

theorem metricOf_shape (dataKvs : List (String × Val)) (c : String)
    (ikvs : List (String × Val)) (ds : List Val) (k : Int)
    (h : EntryShape dataKvs c ikvs ds k) :
    metricOf (Val.dict dataKvs) (Val.str c) =
      Except.ok (Val.int ((ds.length : Int) * k)) := by
  obtain ⟨h₁, h₂, h₃⟩ := h
  simp [metricOf, pyGetV, pyDictGet, pyLen, pyMul, h₁, h₂, h₃, bind, Except.bind]

theorem processLoop_spec (dataKvs : List (String × Val)) (items : List Val)
    (hwf : ∀ c ∈ items, ∃ s, c = Val.str s ∧ EntryWF dataKvs s) :
    ∀ acc, ∃ out, processLoop (Val.dict dataKvs) items acc = Except.ok out ∧
      (∀ s ikvs ds k, Val.str s ∈ items → EntryShape dataKvs s ikvs ds k →
        List.lookup s out = some (Val.int ((ds.length : Int) * k))) ∧
      (∀ s, Val.str s ∉ items → List.lookup s out = List.lookup s acc) := by
  induction items with
  | nil =>
      intro acc
      exact ⟨acc, rfl, by simp, fun s _ => rfl⟩
  | cons c rest ih =>
      intro acc
      obtain ⟨s₀, rfl, ikvs₀, ds₀, k₀, hsh₀⟩ := hwf c (by simp)
      obtain ⟨out, hout, hmem, hnot⟩ :=
        ih (fun c hc => hwf c (List.mem_cons_of_mem _ hc))
          (dictSet acc s₀ (Val.int ((ds₀.length : Int) * k₀)))
      refine ⟨out, ?_, ?_, ?_⟩
      · simp [processLoop, metricOf_shape dataKvs s₀ ikvs₀ ds₀ k₀ hsh₀, keyOf,
          bind, Except.bind, hout]
      · intro s ikvs ds k hs hsh
        rcases List.mem_cons.mp hs with hs | hs
        · by_cases hrest : Val.str s ∈ rest
          · exact hmem s ikvs ds k hrest hsh
          · have hse : s = s₀ := by
              injection hs with hs
            subst hse
            have h₁ : ikvs = ikvs₀ := by
              have := hsh.1.symm.trans hsh₀.1
              injection this
            subst h₁
            have h₂ : ds = ds₀ := by
              have := hsh.2.1.symm.trans hsh₀.2.1
              injection this
            have h₃ : k = k₀ := by
              have := hsh.2.2.symm.trans hsh₀.2.2
              injection this
            subst h₂; subst h₃
            rw [hnot s hrest, lookup_dictSet_self]
        · exact hmem s ikvs ds k hs hsh
      · intro s hs
        have hne : s ≠ s₀ := by
          intro hse
          exact hs (hse ▸ List.mem_cons_self _ _)
        have hrest : Val.str s ∉ rest := fun hr => hs (List.mem_cons_of_mem _ hr)
        rw [hnot s hrest, lookup_dictSet_ne _ _ _ _ hne]

/-- The cohort-data mapping of the worked example: c1 has samples
[1, 2, 3] and dose 2. -/
def c1Data : List (String × Val) :=
  [("c1", Val.dict [("d", Val.list [Val.int 1, Val.int 2, Val.int 3]),
    ("dose", Val.int 2)])]

/-- C1: For every cohort identifier in the configured cohort list, the
output of Cohort.process_data maps that identifier to the length of its
sample sequence times its dose, both taken from that cohort entry of the
cohort data mapping, a missing sample sequence defaulting to the empty
sequence and a missing dose defaulting to 0; in particular, for the
configured list holding only c1 and cohort data giving c1 the samples
1, 2, 3 and dose 2, the result maps c1 to 6. -/
theorem C1_configured_cohort_metric (L : List String)
    (dataKvs : List (String × Val)) (hwf : ∀ c ∈ L, EntryWF dataKvs c) :
    (∃ out ev, process_data (Val.list (L.map Val.str)) (Val.dict dataKvs) =
        Except.ok (out, ev) ∧
      ∀ c ∈ L, ∀ ikvs ds k, EntryShape dataKvs c ikvs ds k →
        List.lookup c out = some (Val.int ((ds.length : Int) * k))) ∧
    process_data (Val.list [Val.str "c1"]) (Val.dict c1Data) =
      Except.ok ([("c1", Val.int 6)],
        [Event.logInfoVal "Processed data for cohorts: " (Val.dict [("c1", Val.int 6)])]) := by
  constructor
  · have hwf₂ : ∀ c ∈ L.map Val.str, ∃ s, c = Val.str s ∧ EntryWF dataKvs s := by
      intro c hc
      obtain ⟨s, hs, rfl⟩ := List.mem_map.mp hc
      exact ⟨s, rfl, hwf s hs⟩
    obtain ⟨out, hout, hmem, _⟩ := processLoop_spec dataKvs (L.map Val.str) hwf₂ []
    refine ⟨out, [Event.logInfoVal "Processed data for cohorts: " (Val.dict out)], ?_, ?_⟩
    · simp [process_data, pyIter, bind, Except.bind, hout]
    · intro c hc ikvs ds k hsh
      exact hmem c ikvs ds k (List.mem_map_of_mem _ hc) hsh
  · rfl

theorem C1_configured_cohort_metric_witness :
    (∃ out ev, process_data (Val.list (["c1"].map Val.str)) (Val.dict c1Data) =
        Except.ok (out, ev) ∧
      ∀ c ∈ ["c1"], ∀ ikvs ds k, EntryShape c1Data c ikvs ds k →
        List.lookup c out = some (Val.int ((ds.length : Int) * k))) ∧
    process_data (Val.list [Val.str "c1"]) (Val.dict c1Data) =
      Except.ok ([("c1", Val.int 6)],
        [Event.logInfoVal "Processed data for cohorts: " (Val.dict [("c1", Val.int 6)])]) := by
  refine C1_configured_cohort_metric ["c1"] c1Data ?_
  intro c hc
  simp at hc
  subst hc
  exact ⟨[("d", Val.list [Val.int 1, Val.int 2, Val.int 3]), ("dose", Val.int 2)],
    [Val.int 1, Val.int 2, Val.int 3], 2, rfl, rfl, rfl⟩

/-- The cohort-data mapping used to refute C3: it contains an entry for
c2 although c2 is not in the configured cohort list. -/
def c3Data : List (String × Val) :=
  [("c2", Val.dict [("d", Val.list [Val.int 1]), ("dose", Val.int 5)])]

/-- C3 as stated is false: with an empty configured cohort list, the
cohort c2 present in the cohort data mapping receives no output entry at
all, because process_data iterates over the configured list and not over
the keys of the data mapping. -/
theorem C3_counterexample :
    process_data (Val.list []) (Val.dict c3Data) =
      Except.ok ([], [Event.logInfoVal "Processed data for cohorts: " (Val.dict [])]) ∧
    (List.lookup "c2" c3Data).isSome = true ∧
    List.lookup "c2" ([] : List (String × Val)) = Option.none :=
  ⟨rfl, rfl, rfl⟩

/-- C3 amended: for every cohort identifier that is a key of the cohort
data mapping AND is in the configured cohort list, the output maps it to
the length of its sample sequence times its dose (missing fields
defaulting to empty sequence and 0); cohorts outside the configured list
receive no output entry. -/
theorem C3_amended_present_and_configured (L : List String)
    (dataKvs : List (String × Val)) (hwf : ∀ c ∈ L, EntryWF dataKvs c) :
    ∃ out ev, process_data (Val.list (L.map Val.str)) (Val.dict dataKvs) =
        Except.ok (out, ev) ∧
      (∀ c ∈ L, ∀ ikvs ds k, List.lookup c dataKvs = some (Val.dict ikvs) →
        dictGet ikvs "d" (Val.list []) = Val.list ds →
        dictGet ikvs "dose" (Val.int 0) = Val.int k →
        List.lookup c out = some (Val.int ((ds.length : Int) * k))) ∧
      (∀ c, c ∉ L → List.lookup c out = Option.none) := by
  have hwf₂ : ∀ c ∈ L.map Val.str, ∃ s, c = Val.str s ∧ EntryWF dataKvs s := by
    intro c hc
    obtain ⟨s, hs, rfl⟩ := List.mem_map.mp hc
    exact ⟨s, rfl, hwf s hs⟩
  obtain ⟨out, hout, hmem, hnot⟩ := processLoop_spec dataKvs (L.map Val.str) hwf₂ []
  refine ⟨out, [Event.logInfoVal "Processed data for cohorts: " (Val.dict out)], ?_, ?_, ?_⟩
  · simp [process_data, pyIter, bind, Except.bind, hout]
  · intro c hc ikvs ds k hlk h₂ h₃
    have h₁ : dictGet dataKvs c (Val.dict []) = Val.dict ikvs := by
      simp [dictGet, hlk]
    exact hmem c ikvs ds k (List.mem_map_of_mem _ hc) ⟨h₁, h₂, h₃⟩
  · intro c hc
    have hni : Val.str c ∉ L.map Val.str := by
      intro hmm
      obtain ⟨s, hs, hse⟩ := List.mem_map.mp hmm
      injection hse with hse
      exact hc (hse ▸ hs)
    simpa using hnot c hni

theorem C3_amended_present_and_configured_witness :
    ∃ out ev, process_data (Val.list (["c2"].map Val.str)) (Val.dict c3Data) =
        Except.ok (out, ev) ∧
      (∀ c ∈ ["c2"], ∀ ikvs ds k, List.lookup c c3Data = some (Val.dict ikvs) →
        dictGet ikvs "d" (Val.list []) = Val.list ds →
        dictGet ikvs "dose" (Val.int 0) = Val.int k →
        List.lookup c out = some (Val.int ((ds.length : Int) * k))) ∧
      (∀ c, c ∉ ["c2"] → List.lookup c out = Option.none) := by
  refine C3_amended_present_and_configured ["c2"] c3Data ?_
  intro c hc
  simp at hc
  subst hc
  exact ⟨[("d", Val.list [Val.int 1]), ("dose", Val.int 5)], [Val.int 1], 5, rfl, rfl, rfl⟩

/-- C10: When the configured cohort selection is the literal string
"all", Cohort.process_data iterates over its characters rather than over
all cohorts: the output dict has exactly the keys a and l, each mapped to
the sample-sequence length times the dose of the cohort-data entry under
that one-character key (with the usual empty/zero defaults). -/
theorem C10_all_literal_iterates_characters (t : TrialState)
    (cfgkvs tdkvs dataKvs akvs lkvs : List (String × Val))
    (dsa dsl : List Val) (ka kl : Int)
    (hcfg : t.trial_config = Val.dict cfgkvs)
    (hco : dictGet cfgkvs "cohorts" (Val.list []) = Val.str "all")
    (htd : t.trial_data = Val.dict tdkvs)
    (hdata : dictGet tdkvs "cohorts" (Val.dict []) = Val.dict dataKvs)
    (ha : EntryShape dataKvs "a" akvs dsa ka)
    (hl : EntryShape dataKvs "l" lkvs dsl kl) :
    Cohort.init t = Except.ok
      (⟨t, Val.str "all", Val.dict dataKvs,
        [("a", Val.int ((dsa.length : Int) * ka)), ("l", Val.int ((dsl.length : Int) * kl))]⟩,
       [Event.logInfoVal "Processed data for cohorts: "
         (Val.dict [("a", Val.int ((dsa.length : Int) * ka)),
           ("l", Val.int ((dsl.length : Int) * kl))])]) := by
  have hiter : pyIter (Val.str "all") = Except.ok [Val.str "a", Val.str "l", Val.str "l"] := rfl
  have hma := metricOf_shape dataKvs "a" akvs dsa ka ha
  have hml := metricOf_shape dataKvs "l" lkvs dsl kl hl
  simp [Cohort.init, pyDictGet, hcfg, hco, htd, hdata, process_data, hiter,
    processLoop, keyOf, hma, hml, dictSet, bind, Except.bind]

/-- A concrete trial instance whose selection is the literal "all" and
whose data has entries under the one-character keys a and l. -/
def t10 : TrialState :=
  ⟨"TrialB", Val.dict [("cohorts", Val.str "all")],
    Val.dict [("cohorts", Val.dict
      [("a", Val.dict [("d", Val.list [Val.int 7]), ("dose", Val.int 4)]),
       ("l", Val.dict [("d", Val.list [Val.int 7, Val.int 8]), ("dose", Val.int 3)])])]⟩

theorem C10_all_literal_iterates_characters_witness :
    Cohort.init t10 = Except.ok
      (⟨t10, Val.str "all",
        Val.dict [("a", Val.dict [("d", Val.list [Val.int 7]), ("dose", Val.int 4)]),
          ("l", Val.dict [("d", Val.list [Val.int 7, Val.int 8]), ("dose", Val.int 3)])],
        [("a", Val.int 4), ("l", Val.int 6)]⟩,
       [Event.logInfoVal "Processed data for cohorts: "
         (Val.dict [("a", Val.int 4), ("l", Val.int 6)])]) := by
  have h := C10_all_literal_iterates_characters t10
    [("cohorts", Val.str "all")]
    [("cohorts", Val.dict
      [("a", Val.dict [("d", Val.list [Val.int 7]), ("dose", Val.int 4)]),
       ("l", Val.dict [("d", Val.list [Val.int 7, Val.int 8]), ("dose", Val.int 3)])])]
    [("a", Val.dict [("d", Val.list [Val.int 7]), ("dose", Val.int 4)]),
     ("l", Val.dict [("d", Val.list [Val.int 7, Val.int 8]), ("dose", Val.int 3)])]
    [("d", Val.list [Val.int 7]), ("dose", Val.int 4)]
    [("d", Val.list [Val.int 7, Val.int 8]), ("dose", Val.int 3)]
    [Val.int 7] [Val.int 7, Val.int 8] 4 3
    rfl rfl rfl rfl ⟨rfl, rfl, rfl⟩ ⟨rfl, rfl, rfl⟩
  exact h

theorem schedule_init_empty (t : TrialState) (cfgkvs : List (String × Val))
    (h₁ : t.trial_config = Val.dict cfgkvs)
    (h₂ : dictGet cfgkvs "cohorts" (Val.list []) = Val.list []) :
    Schedule.init t = Except.ok
      (⟨t, Val.list [], dictGet cfgkvs "schedule" (Val.bool false), some failStatus⟩,
        [Event.logInfo "No cohorts selected.", Event.logError noCohortsMsg]) := by
  simp [Schedule.init, pyDictGet, h₁, h₂, check_conditions, isAllLiteral, Val.truthy,
    bind, Except.bind]

/-- C2: The schedule condition check returns true when the cohort
selection equals the string "all"; it returns true when the selection is
a non-empty sequence; when the selection is an empty sequence it returns
false, and Schedule construction then records the pipeline status with
failure true, critical true and the fixed exit message. -/
theorem C2_check_conditions (x : Val) (xs : List Val) (t : TrialState)
    (cfgkvs : List (String × Val))
    (h₁ : t.trial_config = Val.dict cfgkvs)
    (h₂ : dictGet cfgkvs "cohorts" (Val.list []) = Val.list []) :
    check_conditions (Val.str "all") =
      Except.ok (true, [Event.logInfo "All cohorts selected."]) ∧
    check_conditions (Val.list (x :: xs)) =
      Except.ok (true, [Event.logInfoVal "Selected cohort(s): " (Val.list (x :: xs))]) ∧
    check_conditions (Val.list []) =
      Except.ok (false, [Event.logInfo "No cohorts selected."]) ∧
    ∃ s ev, Schedule.init t = Except.ok (s, ev) ∧
      s.pipeline_di = some (Val.dict [("failure", Val.bool true),
        ("critical", Val.bool true),
        ("message", Val.str "No cohorts were passed. Import pipeline exiting...")]) := by
  refine ⟨rfl, rfl, rfl, ?_⟩
  exact ⟨_, _, schedule_init_empty t cfgkvs h₁ h₂, rfl⟩

/-- A concrete trial instance with an empty cohort selection. -/
def tEmpty : TrialState :=
  ⟨"TrialB", Val.dict [("cohorts", Val.list [])], Val.dict []⟩

theorem C2_check_conditions_witness :
    check_conditions (Val.str "all") =
      Except.ok (true, [Event.logInfo "All cohorts selected."]) ∧
    check_conditions (Val.list (Val.str "c1" :: [])) =
      Except.ok (true, [Event.logInfoVal "Selected cohort(s): " (Val.list (Val.str "c1" :: []))]) ∧
    check_conditions (Val.list []) =
      Except.ok (false, [Event.logInfo "No cohorts selected."]) ∧
    ∃ s ev, Schedule.init tEmpty = Except.ok (s, ev) ∧
      s.pipeline_di = some (Val.dict [("failure", Val.bool true),
        ("critical", Val.bool true),
        ("message", Val.str "No cohorts were passed. Import pipeline exiting...")]) :=
  C2_check_conditions (Val.str "c1") [] tEmpty [("cohorts", Val.list [])] rfl rfl

/-- C4: For every trial name absent from the top-level mapping of the
data file, loading the trial data resolves to an empty mapping without
raising; conversely, the loaded trial data is truthy only if the backing
file exists at the assembled path and its top-level mapping contains an
entry keyed by the trial name. -/
theorem C4_absent_trial_name (cwd rel name : String) (fs : String → Option Val)
    (cfgkvs : List (String × Val))
    (hdf : dictGet cfgkvs "data_file" (Val.str "sample_trial_data.yaml") = Val.str rel) :
    (∀ dkvs, fs (cwd ++ rel) = some (Val.dict dkvs) →
      List.lookup name dkvs = Option.none →
      ∃ ev, load_data cwd fs name (Val.dict cfgkvs) = Except.ok ⟨Val.dict [], ev⟩) ∧
    (∀ r, load_data cwd fs name (Val.dict cfgkvs) = Except.ok r →
      r.trial_data.truthy = true →
      ∃ dkvs v, fs (cwd ++ rel) = some (Val.dict dkvs) ∧
        List.lookup name dkvs = some v) := by
  constructor
  · intro dkvs hfs hlk
    refine ⟨[Event.logWarning ("No data found for " ++ name ++ " in " ++ (cwd ++ rel))], ?_⟩
    have hget : dictGet dkvs name (Val.dict []) = Val.dict [] := by simp [dictGet, hlk]
    simp [load_data, pyDictGet, hdf, hfs, hget, Val.truthy, bind, Except.bind]
  · intro r hr htr
    rw [load_data] at hr
    simp only [pyDictGet, hdf, bind, Except.bind] at hr
    cases hfs : fs (cwd ++ rel) with
    | none =>
        rw [hfs] at hr
        injection hr with hr
        rw [← hr] at htr
        simp [Val.truthy] at htr
    | some content =>
        rw [hfs] at hr
        cases content with
        | dict dkvs =>
            cases hlk : List.lookup name dkvs with
            | none =>
                simp [pyDictGet, dictGet, hlk, Val.truthy] at hr
                rw [← hr] at htr
                simp [Val.truthy] at htr
            | some v =>
                exact ⟨dkvs, v, rfl, hlk⟩
        | str s => simp [pyDictGet] at hr
        | int n => simp [pyDictGet] at hr
        | bool b => simp [pyDictGet] at hr
        | list xs => simp [pyDictGet] at hr
        | none => simp [pyDictGet] at hr

/-- A data file that exists and contains only an entry for another
trial. -/
def fsOther : String → Option Val :=
  fun p => if p = "/w/data.yaml"
    then some (Val.dict [("Other", Val.dict [("x", Val.int 1)])])
    else Option.none

theorem C4_absent_trial_name_witness :
    ∃ ev, load_data "/w/" fsOther "TrialB"
      (Val.dict [("data_file", Val.str "data.yaml")]) = Except.ok ⟨Val.dict [], ev⟩ :=
  (C4_absent_trial_name "/w/" "data.yaml" "TrialB" fsOther
      [("data_file", Val.str "data.yaml")] rfl).1
    [("Other", Val.dict [("x", Val.int 1)])] rfl rfl

/-- A filesystem holding, at the path the loader assembles from the
default data-file name, a file whose YAML content is null (an empty
file). -/
def fsNullYaml : String → Option Val :=
  fun p => if p = "/wsample_trial_data.yaml" then some Val.none else Option.none

/-- C5 is false as stated: when the data file exists but parses to YAML
null (an empty file), the `.get` call on the parse result raises an
AttributeError, so the load operation fails fatally for this input.  The
assembled path also shows the cwd and relative path are joined by bare
string concatenation. -/
theorem C5_counterexample :
    load_data "/w" fsNullYaml "TrialB" (Val.dict []) =
      Except.error "AttributeError: object has no attribute get" := rfl

/-- C5 amended: trial construction consults the filesystem only at the
path assembled by concatenating the cwd and the configured relative path
(default sample_trial_data.yaml); if that file does not exist the load
logs a warning and yields the empty mapping; and the load never fails
provided any existing data file parses to a YAML mapping. -/
theorem C5_amended_soft_failure (cwd rel name : String) (fs : String → Option Val)
    (cfgkvs : List (String × Val))
    (hdf : dictGet cfgkvs "data_file" (Val.str "sample_trial_data.yaml") = Val.str rel) :
    (∀ fs₂ : String → Option Val, fs (cwd ++ rel) = fs₂ (cwd ++ rel) →
      load_data cwd fs name (Val.dict cfgkvs) = load_data cwd fs₂ name (Val.dict cfgkvs)) ∧
    (fs (cwd ++ rel) = Option.none →
      load_data cwd fs name (Val.dict cfgkvs) =
        Except.ok ⟨Val.dict [],
          [Event.logWarning ("Data file " ++ (cwd ++ rel) ++
            " not found. Continuing without data.")]⟩) ∧
    (∀ dkvs, fs (cwd ++ rel) = some (Val.dict dkvs) →
      ∃ r, load_data cwd fs name (Val.dict cfgkvs) = Except.ok r) := by
  refine ⟨?_, ?_, ?_⟩
  · intro fs₂ hsame
    simp [load_data, pyDictGet, hdf, bind, Except.bind, ← hsame]
  · intro hfs
    simp [load_data, pyDictGet, hdf, hfs, bind, Except.bind]
  · intro dkvs hfs
    by_cases htr : (dictGet dkvs name (Val.dict [])).truthy
    · exact ⟨⟨dictGet dkvs name (Val.dict []),
        [Event.printVal "" (dictGet dkvs name (Val.dict [])),
          Event.logInfo ("Loaded data for " ++ name ++ " from " ++ (cwd ++ rel))]⟩,
        by simp [load_data, pyDictGet, hdf, hfs, htr, bind, Except.bind]⟩
    · exact ⟨⟨dictGet dkvs name (Val.dict []),
        [Event.logWarning ("No data found for " ++ name ++ " in " ++ (cwd ++ rel))]⟩,
        by simp [load_data, pyDictGet, hdf, hfs, htr, bind, Except.bind]⟩

theorem C5_amended_soft_failure_witness :
    load_data "/q/" (fun _ => Option.none) "TrialB" (Val.dict []) =
      Except.ok ⟨Val.dict [],
        [Event.logWarning ("Data file " ++ ("/q/" ++ "sample_trial_data.yaml") ++
          " not found. Continuing without data.")]⟩ :=
  (C5_amended_soft_failure "/q/" "sample_trial_data.yaml" "TrialB"
    (fun _ => Option.none) [] rfl).2.1 rfl

/-- The cohort selection is in the domain the spec describes: the
literal marker "all", or a sequence of (non-empty) cohort identifiers. -/
def WellFormedSelection (v : Val) : Prop :=
  v = Val.str "all" ∨
  ∃ items : List Val, v = Val.list items ∧
    ∀ c ∈ items, ∃ s : String, c = Val.str s ∧ s.data ≠ []

theorem mapIndex0_wf (items : List Val)
    (h : ∀ c ∈ items, ∃ s : String, c = Val.str s ∧ s.data ≠ []) :
    ∃ out, mapIndex0 items = Except.ok out := by
  induction items with
  | nil => exact ⟨[], rfl⟩
  | cons c rest ih =>
      obtain ⟨s, rfl, hs⟩ := h c (by simp)
      obtain ⟨out, hout⟩ := ih (fun c hc => h c (List.mem_cons_of_mem _ hc))
      cases htl : s.data with
      | nil => exact absurd htl hs
      | cons ch chs =>
          exact ⟨Val.str (String.mk [ch]) :: out, by
            simp [mapIndex0, pyIndex0, htl, hout, bind, Except.bind]⟩

theorem check_conditions_no_print (cohorts : Val) (b : Bool) (evc : List Event)
    (h : check_conditions cohorts = Except.ok (b, evc)) (tag : String) (v : Val) :
    Event.printVal tag v ∉ evc := by
  rw [check_conditions] at h
  split at h
  · simp only [Except.ok.injEq, Prod.mk.injEq] at h
    rw [← h.2]
    simp
  · split at h
    · cases hit : pyIter cohorts with
      | error e => simp [hit, bind, Except.bind] at h
      | ok l =>
          simp only [hit, bind, Except.bind, Except.ok.injEq, Prod.mk.injEq] at h
          rw [← h.2]
          simp
    · simp only [Except.ok.injEq, Prod.mk.injEq] at h
      rw [← h.2]
      simp

theorem fetch_schedule_dict (t : TrialState) (dkvs : List (String × Val))
    (h : t.trial_data = Val.dict dkvs) :
    fetch_schedule t = Except.ok (dictGet dkvs "schedule" (Val.dict []),
      [Event.logInfo "Collecting schedule for the trial.",
       Event.printVal "Schedule data: " (dictGet dkvs "schedule" (Val.dict [])),
       Event.logInfoVal "Schedule data: " (dictGet dkvs "schedule" (Val.dict []))]) := by
  simp [fetch_schedule, pyDictGet, h, bind, Except.bind]

/-- C6: During Schedule construction, if and only if the cohort
selection passes the condition check and the "schedule" config flag is
truthy, the "schedule" entry of the trial data (default empty mapping)
is fetched and printed.  The selection ranges over the domain the spec
gives it: the literal "all" or a sequence of cohort identifiers. -/
theorem C6_schedule_fetch_iff (t : TrialState) (cfgkvs dkvs : List (String × Val))
    (b : Bool) (evc : List Event)
    (h₁ : t.trial_config = Val.dict cfgkvs)
    (h₂ : t.trial_data = Val.dict dkvs)
    (hwf : WellFormedSelection (dictGet cfgkvs "cohorts" (Val.list [])))
    (hchk : check_conditions (dictGet cfgkvs "cohorts" (Val.list [])) =
      Except.ok (b, evc)) :
    ∃ s ev, Schedule.init t = Except.ok (s, ev) ∧
      (Event.printVal "Schedule data: " (dictGet dkvs "schedule" (Val.dict [])) ∈ ev ↔
        (b = true ∧ (dictGet cfgkvs "schedule" (Val.bool false)).truthy = true)) := by
  cases b with
  | false =>
      refine ⟨⟨t, dictGet cfgkvs "cohorts" (Val.list []),
        dictGet cfgkvs "schedule" (Val.bool false), some failStatus⟩,
        evc ++ [Event.logError noCohortsMsg], ?_, ?_⟩
      · simp [Schedule.init, pyDictGet, h₁, hchk, bind, Except.bind]
      · constructor
        · intro hmem
          rcases List.mem_append.mp hmem with hm | hm
          · exact absurd hm (check_conditions_no_print _ _ _ hchk _ _)
          · simp at hm
        · rintro ⟨hb, _⟩
          exact absurd hb (by simp)
  | true =>
      have hfirsts : ∃ out, pyFirsts (dictGet cfgkvs "cohorts" (Val.list [])) =
          Except.ok out := by
        rcases hwf with hall | ⟨items, heq, hitems⟩
        · exact ⟨[Val.str "a", Val.str "l", Val.str "l"], by rw [hall]; rfl⟩
        · obtain ⟨out, hout⟩ := mapIndex0_wf items hitems
          exact ⟨out, by rw [heq]; simp [pyFirsts, pyIter, bind, Except.bind, hout]⟩
      obtain ⟨firsts, hfs⟩ := hfirsts
      by_cases hc : (dictGet cfgkvs "schedule" (Val.bool false)).truthy = true
      · refine ⟨⟨t, dictGet cfgkvs "cohorts" (Val.list []),
          dictGet cfgkvs "schedule" (Val.bool false), Option.none⟩,
          (evc ++ [Event.logInfoVal "Commencing data fetch cohorts: " (Val.list firsts)]) ++
            [Event.logInfo "Collecting schedule for the trial.",
             Event.printVal "Schedule data: " (dictGet dkvs "schedule" (Val.dict [])),
             Event.logInfoVal "Schedule data: " (dictGet dkvs "schedule" (Val.dict []))],
          ?_, ?_⟩
        · simp [Schedule.init, pyDictGet, h₁, hchk, hfs, hc,
            fetch_schedule_dict t dkvs h₂, bind, Except.bind]
        · simp [hc]
      · refine ⟨⟨t, dictGet cfgkvs "cohorts" (Val.list []),
          dictGet cfgkvs "schedule" (Val.bool false), Option.none⟩,
          evc ++ [Event.logInfoVal "Commencing data fetch cohorts: " (Val.list firsts)],
          ?_, ?_⟩
        · simp [Schedule.init, pyDictGet, h₁, hchk, hfs, hc, bind, Except.bind]
        · constructor
          · intro hmem
            rcases List.mem_append.mp hmem with hm | hm
            · exact absurd hm (check_conditions_no_print _ _ _ hchk _ _)
            · simp at hm
          · rintro ⟨_, hcc⟩
            exact absurd hcc hc

/-- A concrete trial whose selection is "all", whose schedule flag is
set, and whose data carries a schedule entry. -/
def t6 : TrialState :=
  ⟨"TrialB", Val.dict [("cohorts", Val.str "all"), ("schedule", Val.bool true)],
    Val.dict [("schedule", Val.dict [("day", Val.str "monday")])]⟩

theorem C6_schedule_fetch_iff_witness :
    ∃ s ev, Schedule.init t6 = Except.ok (s, ev) ∧
      (Event.printVal "Schedule data: "
          (dictGet [("schedule", Val.dict [("day", Val.str "monday")])] "schedule"
            (Val.dict [])) ∈ ev ↔
        (true = true ∧
          (dictGet [("cohorts", Val.str "all"), ("schedule", Val.bool true)] "schedule"
            (Val.bool false)).truthy = true)) :=
  C6_schedule_fetch_iff t6
    [("cohorts", Val.str "all"), ("schedule", Val.bool true)]
    [("schedule", Val.dict [("day", Val.str "monday")])]
    true [Event.logInfo "All cohorts selected."] rfl rfl (Or.inl rfl) rfl

/-- C7: For any wrapped component type, the job produced by the composer
starts with the non-failure pipeline status (failure false); its
introduce step prints the welcome message when the job holds a nested
trial instance exposing a trial name, and otherwise sets the pipeline
status to failure true, critical true. -/
theorem C7_composer_contract {σ : Type} (getTI : σ → Option TrialState)
    (componentInit : TrialState → Except String (σ × List Event))
    (t : TrialState) (s : σ) (ev : List Event)
    (h : componentInit t = Except.ok (s, ev)) :
    create_import_init componentInit t = Except.ok (⟨s, okStatus⟩, ev) ∧
    okStatus = Val.dict [("failure", Val.bool false)] ∧
    (∀ ti, getTI s = some ti →
      introduce getTI ⟨s, okStatus⟩ = (⟨s, okStatus⟩,
        [Event.logInfo ("Inherited " ++ ti.trial_name ++ " and associated values."),
         Event.printStr ("Welcome to the " ++ ti.trial_name ++ " clinical trial!")])) ∧
    (getTI s = Option.none →
      (introduce getTI ⟨s, okStatus⟩).1.pipeline_di =
        Val.dict [("failure", Val.bool true), ("critical", Val.bool true)] ∧
      (introduce getTI ⟨s, okStatus⟩).2 =
        [Event.logError "Failed to inherit expected class. Check function arguments."]) := by
  refine ⟨?_, rfl, ?_, ?_⟩
  · simp [create_import_init, h, bind, Except.bind]
  · intro ti hti
    simp [introduce, hti]
  · intro hnone
    simp [introduce, hnone, introduceFailStatus]

/-- The Schedule state obtained by constructing a Schedule on the trial
with an empty cohort selection. -/
def sEmpty : ScheduleState := ⟨tEmpty, Val.list [], Val.bool false, some failStatus⟩

theorem C7_composer_contract_witness :
    (create_import_init Schedule.init tEmpty = Except.ok (⟨sEmpty, okStatus⟩,
        [Event.logInfo "No cohorts selected.", Event.logError noCohortsMsg]) ∧
      okStatus = Val.dict [("failure", Val.bool false)] ∧
      (∀ ti, scheduleTrial sEmpty = some ti →
        introduce scheduleTrial ⟨sEmpty, okStatus⟩ = (⟨sEmpty, okStatus⟩,
          [Event.logInfo ("Inherited " ++ ti.trial_name ++ " and associated values."),
           Event.printStr ("Welcome to the " ++ ti.trial_name ++ " clinical trial!")])) ∧
      (scheduleTrial sEmpty = Option.none →
        (introduce scheduleTrial ⟨sEmpty, okStatus⟩).1.pipeline_di =
          Val.dict [("failure", Val.bool true), ("critical", Val.bool true)] ∧
        (introduce scheduleTrial ⟨sEmpty, okStatus⟩).2 =
          [Event.logError "Failed to inherit expected class. Check function arguments."])) ∧
    ((fun (_ : ScheduleState) => (Option.none : Option TrialState)) sEmpty = Option.none →
      (introduce (fun (_ : ScheduleState) => (Option.none : Option TrialState))
          ⟨sEmpty, okStatus⟩).1.pipeline_di =
        Val.dict [("failure", Val.bool true), ("critical", Val.bool true)] ∧
      (introduce (fun (_ : ScheduleState) => (Option.none : Option TrialState))
          ⟨sEmpty, okStatus⟩).2 =
        [Event.logError "Failed to inherit expected class. Check function arguments."]) :=
  ⟨C7_composer_contract scheduleTrial Schedule.init tEmpty sEmpty
      [Event.logInfo "No cohorts selected.", Event.logError noCohortsMsg] rfl,
    (C7_composer_contract (fun (_ : ScheduleState) => (Option.none : Option TrialState))
      Schedule.init tEmpty sEmpty
      [Event.logInfo "No cohorts selected.", Event.logError noCohortsMsg] rfl).2.2.2⟩

/-- C8: For the Schedule-composed job, run_import fetches and prints the
schedule whenever the "schedule" flag is truthy, regardless of the
condition-check result: with an empty cohort selection (whose check
returns false) and the flag set, the schedule data is still fetched and
printed. -/
theorem C8_run_import_fetches_despite_failed_check (t : TrialState)
    (cfgkvs dkvs : List (String × Val))
    (h₁ : t.trial_config = Val.dict cfgkvs)
    (h₂ : dictGet cfgkvs "cohorts" (Val.list []) = Val.list [])
    (h₃ : (dictGet cfgkvs "schedule" (Val.bool false)).truthy = true)
    (h₄ : t.trial_data = Val.dict dkvs) :
    ∃ j ev₀ j₂ evs, create_import_init Schedule.init t = Except.ok (j, ev₀) ∧
      check_conditions j.inner.cohorts =
        Except.ok (false, [Event.logInfo "No cohorts selected."]) ∧
      run_import j = Except.ok (j₂, evs) ∧
      Event.printVal "Schedule data: " (dictGet dkvs "schedule" (Val.dict [])) ∈ evs := by
  refine ⟨⟨⟨t, Val.list [], dictGet cfgkvs "schedule" (Val.bool false), some failStatus⟩,
      okStatus⟩,
    [Event.logInfo "No cohorts selected.", Event.logError noCohortsMsg],
    ⟨⟨t, Val.list [], dictGet cfgkvs "schedule" (Val.bool false), some failStatus⟩, okStatus⟩,
    [Event.logInfo ("Inherited " ++ t.trial_name ++ " and associated values."),
     Event.printStr ("Welcome to the " ++ t.trial_name ++ " clinical trial!")] ++
      [Event.logInfo "No cohorts selected."] ++
      [Event.logInfo "Collecting schedule for the trial.",
       Event.printVal "Schedule data: " (dictGet dkvs "schedule" (Val.dict [])),
       Event.logInfoVal "Schedule data: " (dictGet dkvs "schedule" (Val.dict []))],
    ?_, rfl, ?_, ?_⟩
  · simp [create_import_init, schedule_init_empty t cfgkvs h₁ h₂, bind, Except.bind]
  · have hcc : check_conditions (Val.list []) =
        Except.ok (false, [Event.logInfo "No cohorts selected."]) := rfl
    simp [run_import, introduce, scheduleTrial, h₃, fetch_schedule_dict t dkvs h₄,
      hcc, bind, Except.bind]
  · simp

/-- A concrete trial with an empty cohort selection and the schedule
flag set. -/
def t8 : TrialState :=
  ⟨"TrialB", Val.dict [("cohorts", Val.list []), ("schedule", Val.bool true)],
    Val.dict [("schedule", Val.dict [("day", Val.str "monday")])]⟩

theorem C8_run_import_fetches_despite_failed_check_witness :
    ∃ j ev₀ j₂ evs, create_import_init Schedule.init t8 = Except.ok (j, ev₀) ∧
      check_conditions j.inner.cohorts =
        Except.ok (false, [Event.logInfo "No cohorts selected."]) ∧
      run_import j = Except.ok (j₂, evs) ∧
      Event.printVal "Schedule data: "
        (dictGet [("schedule", Val.dict [("day", Val.str "monday")])] "schedule"
          (Val.dict [])) ∈ evs :=
  C8_run_import_fetches_despite_failed_check t8
    [("cohorts", Val.list []), ("schedule", Val.bool true)]
    [("schedule", Val.dict [("day", Val.str "monday")])]
    rfl rfl rfl rfl

/-- C9: Constructing a composed job assigns the pipeline status after
the wrapped initializer has run, so the failure status recorded by the
Schedule initializer for an empty cohort selection is overwritten: for
every successfully constructed job the status reads failure false. -/
theorem C9_job_init_overwrites_status (t : TrialState) (cfgkvs : List (String × Val))
    (h₁ : t.trial_config = Val.dict cfgkvs)
    (h₂ : dictGet cfgkvs "cohorts" (Val.list []) = Val.list []) :
    (∀ t₂ s ev, Schedule.init t₂ = Except.ok (s, ev) →
      create_import_init Schedule.init t₂ = Except.ok (⟨s, okStatus⟩, ev) ∧
      okStatus = Val.dict [("failure", Val.bool false)]) ∧
    ∃ s ev, Schedule.init t = Except.ok (s, ev) ∧ s.pipeline_di = some failStatus ∧
      create_import_init Schedule.init t = Except.ok (⟨s, okStatus⟩, ev) := by
  constructor
  · intro t₂ s ev h
    exact ⟨by simp [create_import_init, h, bind, Except.bind], rfl⟩
  · refine ⟨⟨t, Val.list [], dictGet cfgkvs "schedule" (Val.bool false), some failStatus⟩,
      [Event.logInfo "No cohorts selected.", Event.logError noCohortsMsg],
      schedule_init_empty t cfgkvs h₁ h₂, rfl, ?_⟩
    simp [create_import_init, schedule_init_empty t cfgkvs h₁ h₂, bind, Except.bind]

theorem C9_job_init_overwrites_status_witness :
    (∀ t₂ s ev, Schedule.init t₂ = Except.ok (s, ev) →
      create_import_init Schedule.init t₂ = Except.ok (⟨s, okStatus⟩, ev) ∧
      okStatus = Val.dict [("failure", Val.bool false)]) ∧
    ∃ s ev, Schedule.init tEmpty = Except.ok (s, ev) ∧ s.pipeline_di = some failStatus ∧
      create_import_init Schedule.init tEmpty = Except.ok (⟨s, okStatus⟩, ev) :=
  C9_job_init_overwrites_status tEmpty [("cohorts", Val.list [])] rfl rfl

example :
    load_data "/w" (fun _ => Option.none) "TrialB" (Val.dict []) =
      Except.ok ⟨Val.dict [],
        [Event.logWarning "Data file /wsample_trial_data.yaml not found. Continuing without data."]⟩ := by
  rfl

example :
    load_data "/w/" (fun p => if p = "/w/d.yaml" then some Val.none else Option.none)
      "TrialB" (Val.dict [("data_file", Val.str "d.yaml")]) =
      Except.error "AttributeError: object has no attribute get" := by
  rfl
